import Mathlib

/-!
Shallow embedding of the TareaInteligente repository.

The repository holds three near-identical implementations of one
retry-with-delay wrapper:

* the class variant (`TareaInteligenteClase.js`, class `TareaInteligente`):
  `#prepararConfiguracion`, `#ejecutarConResiliencia`, `iniciar`;
* the literal-object variant (`TareaInteligenteLiteral.js`, object
  `TareaInteligente` with persistent `_intentosRealizados`):
  `configurar`, `_intentarEjecucion`, `iniciar`;
* the async/await variant (`TareaInteligenteAsync.js`):
  `prepararConfiguracion`, `ejecutarConResiliencia`, `iniciar`.

Modelling choices:

* A JS error value is represented by its message string (`JsError`).
* The wrapped operation is a stateful thunk; it is modelled as a function
  from the number of invocations already made (0-based) to `Except`:
  `ejecutar i` is the outcome of the (i+1)-th invocation.
* The success callback `despues` is a synchronous callback; a thrown
  error is an `Except.error`.
* Observable side effects (operation invocations, `console.warn` per
  failed attempt, `setTimeout` delays, the terminal `console.error`,
  the callback call) are recorded in order in a list of events `Ev`.
* Numeric configuration fields are optional naturals; JS falsy-coalescing
  `x || d` on a number is `orNat`: absent and `0` fall back to `d`.
-/

/-- A JavaScript error value, represented by its message. -/
structure JsError where
  message : String
deriving DecidableEq, Repr

/-- The terminal rejection built by all three variants:
`new Error("Todos los intentos fallaron.")`. -/
def todosError : JsError := ⟨"Todos los intentos fallaron."⟩

/-- Observable events of one run, in order of occurrence. -/
inductive Ev (α : Type) where
  /-- one invocation of the wrapped operation -/
  | invoke : Ev α
  /-- the `console.warn` for a failed attempt, carrying the 1-based attempt number -/
  | warn : Nat → Ev α
  /-- a `setTimeout` delay of the given number of milliseconds -/
  | wait : Nat → Ev α
  /-- the `console.error` tagged with the task name, carrying the logged error -/
  | errLog : String → JsError → Ev α
  /-- invocation of the success callback with the result -/
  | cb : α → Ev α
deriving DecidableEq, Repr

/-- The caller-supplied configuration object: each field may be absent. -/
structure RawConfig where
  reintentos : Option Nat := none
  demoraEntreIntentos : Option Nat := none
  modoSilencioso : Option Bool := none
deriving DecidableEq, Repr

/-- JS `x || d` for an optional number: `undefined` and `0` are falsy. -/
def orNat : Option Nat → Nat → Nat
  | none, d => d
  | some 0, d => d
  | some (n + 1), _ => n + 1

/-- JS `x || false` for an optional boolean. -/
def orFalse : Option Bool → Bool
  | some true => true
  | _ => false

/-- JS `x || d` for an optional string: `undefined` and `""` are falsy. -/
def orStr : Option String → String → String
  | none, d => d
  | some s, d => if s = "" then d else s

/-- The configuration produced by the class variant `#prepararConfiguracion`. -/
structure Config where
  maxIntentos : Nat
  demoraEntreIntentos : Nat
  silencio : Bool
deriving DecidableEq, Repr

/-- Method `#prepararConfiguracion` of `TareaInteligenteClase.js`:
`{ maxIntentos: conf.reintentos || 3, demoraEntreIntentos:
conf.demoraEntreIntentos || 1000, silencio: conf.modoSilencioso || false }`. -/
def prepararConfiguracion (conf : RawConfig) : Config :=
  { maxIntentos := orNat conf.reintentos 3
    demoraEntreIntentos := orNat conf.demoraEntreIntentos 1000
    silencio := orFalse conf.modoSilencioso }

/-- The constructor argument of the class variant. -/
structure Opciones (α : Type) where
  nombre : Option String
  configuracion : Option RawConfig
  ejecutar : Nat → Except JsError α
  despues : Option (α → Except JsError Unit)

/-- A constructed class-variant task instance. -/
structure Tarea (α : Type) where
  nombre : String
  config : Config
  ejecutar : Nat → Except JsError α
  despues : Option (α → Except JsError Unit)

/-- The class-variant constructor: `this.nombre = nombre || "TareaSinNombre";
this.config = this.#prepararConfiguracion(configuracion || {})`.
`none` for `configuracion` covers both `undefined` and `null`. -/
def mkTarea {α : Type} (opciones : Opciones α) : Tarea α :=
  { nombre := orStr opciones.nombre "TareaSinNombre"
    config := prepararConfiguracion (opciones.configuracion.getD {})
    ejecutar := opciones.ejecutar
    despues := opciones.despues }

/-- The recursive `intentar` closure inside `#ejecutarConResiliencia` of the
class variant. `intentos` is the counter value on entry (0 on the first
call); a failed invocation increments it, warns (unless silent) with the
incremented, 1-based value, and retries after a delay while
`intentos < conf.maxIntentos`. -/
def intentar {α : Type} (conf : Config) (funcion : Nat → Except JsError α)
    (intentos : Nat) : List (Ev α) × Except JsError α :=
  match funcion intentos with
  | Except.ok resultado => ([Ev.invoke], Except.ok resultado)
  | Except.error _ =>
      let registro : List (Ev α) :=
        if conf.silencio then [] else [Ev.warn (intentos + 1)]
      if h : intentos + 1 < conf.maxIntentos then
        let resto := intentar conf funcion (intentos + 1)
        (Ev.invoke :: registro ++ Ev.wait conf.demoraEntreIntentos :: resto.1,
          resto.2)
      else
        (Ev.invoke :: registro, Except.error todosError)
termination_by conf.maxIntentos - intentos
decreasing_by omega

/-- Method `#ejecutarConResiliencia` of the class variant: runs `intentar`
with the counter starting at 0. -/
def ejecutarConResiliencia {α : Type} (funcion : Nat → Except JsError α)
    (conf : Config) : List (Ev α) × Except JsError α :=
  intentar conf funcion 0

/-- Method `iniciar` of the class variant: runs the resilient loop; on success
calls `despues` (if present) with the result and resolves with the result;
any rejection reaching the final `.catch` (loop exhaustion, or a throw
from `despues`) is logged with the task name and re-rejected. -/
def iniciar {α : Type} (t : Tarea α) : List (Ev α) × Except JsError α :=
  let r := ejecutarConResiliencia t.ejecutar t.config
  match r.2 with
  | Except.ok resultado =>
      match t.despues with
      | none => (r.1, Except.ok resultado)
      | some f =>
          match f resultado with
          | Except.ok _ => (r.1 ++ [Ev.cb resultado], Except.ok resultado)
          | Except.error e =>
              (r.1 ++ [Ev.cb resultado, Ev.errLog t.nombre e], Except.error e)
  | Except.error e => (r.1 ++ [Ev.errLog t.nombre e], Except.error e)

/-- The configuration produced by the async variant `prepararConfiguracion`:
the spread keeps `demoraEntreIntentos` exactly as supplied (possibly
absent); only `maxIntentos` and `silencio` are defaulted here. -/
structure AsyncConfig where
  maxIntentos : Nat
  silencio : Bool
  demoraEntreIntentos : Option Nat
deriving DecidableEq, Repr

/-- Function `prepararConfiguracion` of `TareaInteligenteAsync.js`:
`{ ...config, maxIntentos: config.reintentos || 3,
silencio: config.modoSilencioso || false }`. -/
def asyncPrepararConfiguracion (config : RawConfig) : AsyncConfig :=
  { maxIntentos := orNat config.reintentos 3
    silencio := orFalse config.modoSilencioso
    demoraEntreIntentos := config.demoraEntreIntentos }

/-- The `while` loop body of `ejecutarConResiliencia` in the async variant:
while `intentos < config.maxIntentos`, invoke; on failure increment,
warn (unless silent), and wait `config.demoraEntreIntentos || 1000`
(the delay default is applied at the wait site, and the wait happens
after every failed attempt, including the last); after the loop,
throw the exhaustion error. -/
def asyncBucle {α : Type} (funcion : Nat → Except JsError α)
    (config : AsyncConfig) (intentos : Nat) : List (Ev α) × Except JsError α :=
  if h : intentos < config.maxIntentos then
    match funcion intentos with
    | Except.ok resultado => ([Ev.invoke], Except.ok resultado)
    | Except.error _ =>
        let registro : List (Ev α) :=
          if config.silencio then [] else [Ev.warn (intentos + 1)]
        let resto := asyncBucle funcion config (intentos + 1)
        (Ev.invoke :: registro ++
            Ev.wait (orNat config.demoraEntreIntentos 1000) :: resto.1,
          resto.2)
  else ([], Except.error todosError)
termination_by config.maxIntentos - intentos
decreasing_by omega

/-- Function `ejecutarConResiliencia` of the async variant. -/
def asyncEjecutarConResiliencia {α : Type} (funcion : Nat → Except JsError α)
    (config : AsyncConfig) : List (Ev α) × Except JsError α :=
  asyncBucle funcion config 0

/-- The argument of the async variant factory `TareaInteligente`. -/
structure AsyncOpciones (α : Type) where
  nombre : String
  configuracion : RawConfig
  ejecutar : Nat → Except JsError α
  despues : Option (α → Except JsError Unit)

/-- Function `iniciar` of the async variant: prepares the configuration, runs the
loop, and on success calls `despues` (if present). Both the loop and the
callback run inside one `try`; every error is caught and passed to
`logError` — nothing is rethrown, and the result is not returned, so the
returned promise always resolves with `undefined`. -/
def asyncIniciar {α : Type} (t : AsyncOpciones α) :
    List (Ev α) × Except JsError Unit :=
  let config := asyncPrepararConfiguracion t.configuracion
  let r := asyncEjecutarConResiliencia t.ejecutar config
  match r.2 with
  | Except.ok resultado =>
      match t.despues with
      | none => (r.1, Except.ok ())
      | some f =>
          match f resultado with
          | Except.ok _ => (r.1 ++ [Ev.cb resultado], Except.ok ())
          | Except.error e =>
              (r.1 ++ [Ev.cb resultado, Ev.errLog t.nombre e], Except.ok ())
  | Except.error e => (r.1 ++ [Ev.errLog t.nombre e], Except.ok ())

/-- The literal-object variant `TareaInteligente` after `configurar`:
its configuration fields, its operation and callback, its persistent
attempt counter `_intentosRealizados`, and (modelling the statefulness
of the `ejecutar` thunk) the total number of invocations made so far. -/
structure TareaLiteral (α : Type) where
  nombre : String
  reintentos : Nat
  demoraEntreIntentos : Nat
  modoSilencioso : Bool
  ejecutar : Nat → Except JsError α
  despues : α → Except JsError Unit
  intentosRealizados : Nat
  llamadas : Nat

/-- The state change of one failed literal-variant attempt: `ejecutar` was
called once more and `self._intentosRealizados++` ran. -/
def litAvance {α : Type} (s : TareaLiteral α) : TareaLiteral α :=
  { s with llamadas := s.llamadas + 1,
           intentosRealizados := s.intentosRealizados + 1 }

/-- Method `_intentarEjecucion` of the literal variant: invokes `ejecutar`; on
failure increments the persistent `_intentosRealizados`, warns (unless
silent) with its new value, and retries after a delay while
`_intentosRealizados < reintentos`; otherwise rejects with the exhaustion
error. Returns the events, the outcome, and the updated object state. -/
def intentarEjecucion {α : Type} (s : TareaLiteral α) :
    (List (Ev α) × Except JsError α) × TareaLiteral α :=
  match s.ejecutar s.llamadas with
  | Except.ok resultado =>
      (([Ev.invoke], Except.ok resultado), { s with llamadas := s.llamadas + 1 })
  | Except.error _ =>
      let registro : List (Ev α) :=
        if s.modoSilencioso then []
        else [Ev.warn (litAvance s).intentosRealizados]
      if h : (litAvance s).intentosRealizados < s.reintentos then
        let resto := intentarEjecucion (litAvance s)
        ((Ev.invoke :: registro ++
            Ev.wait s.demoraEntreIntentos :: resto.1.1, resto.1.2), resto.2)
      else
        ((Ev.invoke :: registro, Except.error todosError), litAvance s)
termination_by s.reintentos - s.intentosRealizados
decreasing_by simp [litAvance] at h ⊢; omega

/-- Method `iniciar` of the literal variant: sets `_intentosRealizados = 0`,
runs `_intentarEjecucion`, then calls `despues` with the result on
success; any rejection reaching the final `.catch` is logged with the
task name and re-rejected. -/
def litIniciar {α : Type} (s : TareaLiteral α) :
    (List (Ev α) × Except JsError α) × TareaLiteral α :=
  let r := intentarEjecucion { s with intentosRealizados := 0 }
  match r.1.2 with
  | Except.ok resultado =>
      match s.despues resultado with
      | Except.ok _ =>
          ((r.1.1 ++ [Ev.cb resultado], Except.ok resultado), r.2)
      | Except.error e =>
          ((r.1.1 ++ [Ev.cb resultado, Ev.errLog s.nombre e],
            Except.error e), r.2)
  | Except.error e =>
      ((r.1.1 ++ [Ev.errLog s.nombre e], Except.error e), r.2)

/-! ## Event counting and trace shape helpers -/

/-- The list `[j, j+1, ..., j+n-1]`. -/
def numsFrom (j : Nat) : Nat → List Nat
  | 0 => []
  | n + 1 => j :: numsFrom (j + 1) n

/-- Number of operation invocations recorded in a trace. -/
def countInvoke {α : Type} (evs : List (Ev α)) : Nat :=
  evs.countP fun e => match e with | Ev.invoke => true | _ => false

/-- Number of delays recorded in a trace. -/
def countWait {α : Type} (evs : List (Ev α)) : Nat :=
  evs.countP fun e => match e with | Ev.wait _ => true | _ => false

/-- The attempt numbers of the warning logs of a trace, in order. -/
def warnNums {α : Type} : List (Ev α) → List Nat
  | [] => []
  | Ev.warn n :: resto => n :: warnNums resto
  | _ :: resto => warnNums resto

/-- The error-level logs of a trace (task name and logged error), in order. -/
def errLogs {α : Type} : List (Ev α) → List (String × JsError)
  | [] => []
  | Ev.errLog n er :: resto => (n, er) :: errLogs resto
  | _ :: resto => errLogs resto

/-- The arguments of the success-callback invocations of a trace, in order. -/
def cbCalls {α : Type} : List (Ev α) → List α
  | [] => []
  | Ev.cb r :: resto => r :: cbCalls resto
  | _ :: resto => cbCalls resto

theorem warnNums_append {α : Type} :
    ∀ (l1 l2 : List (Ev α)), warnNums (l1 ++ l2) = warnNums l1 ++ warnNums l2 := by
  intro l1 l2
  induction l1 with
  | nil => simp [warnNums]
  | cons e resto ih => cases e <;> simp [warnNums, ih]

theorem errLogs_append {α : Type} :
    ∀ (l1 l2 : List (Ev α)), errLogs (l1 ++ l2) = errLogs l1 ++ errLogs l2 := by
  intro l1 l2
  induction l1 with
  | nil => simp [errLogs]
  | cons e resto ih => cases e <;> simp [errLogs, ih]

theorem cbCalls_append {α : Type} :
    ∀ (l1 l2 : List (Ev α)), cbCalls (l1 ++ l2) = cbCalls l1 ++ cbCalls l2 := by
  intro l1 l2
  induction l1 with
  | nil => simp [cbCalls]
  | cons e resto ih => cases e <;> simp [cbCalls, ih]

/-- Returns `true` iff every delay of the trace is immediately followed by an
operation invocation (so a delay only ever sits between two attempts). -/
def waitsBetween {α : Type} : List (Ev α) → Bool
  | [] => true
  | Ev.wait _ :: resto =>
      (match resto.head? with | some Ev.invoke => true | _ => false)
        && waitsBetween resto
  | _ :: resto => waitsBetween resto

/-- The per-attempt warning block: empty when silent. -/
def warnIf {α : Type} (sil : Bool) (k : Nat) : List (Ev α) :=
  if sil then [] else [Ev.warn k]

/-- Trace of `n` failed attempts numbered `j+1, ..., j+n`, each followed by
a delay of `d` (the async-variant failure shape). -/
def asyncFailTrace {α : Type} (sil : Bool) (d : Nat) (j : Nat) :
    Nat → List (Ev α)
  | 0 => []
  | n + 1 =>
      Ev.invoke :: warnIf sil (j + 1) ++
        Ev.wait d :: asyncFailTrace sil d (j + 1) n

/-- Trace of `n` failed attempts numbered `j+1, ..., j+n`, with a delay of `d`
strictly between consecutive attempts and none after the last
(the class/literal-variant failure shape). -/
def claseFailTrace {α : Type} (sil : Bool) (d : Nat) (j : Nat) :
    Nat → List (Ev α)
  | 0 => []
  | n + 1 =>
      asyncFailTrace sil d j n ++ Ev.invoke :: warnIf sil (j + n + 1)

/-- Trace of `n` failed attempts numbered `j+1, ..., j+n`, each followed by
a delay of `d`, then one final successful invocation. -/
def riseTrace {α : Type} (sil : Bool) (d : Nat) (j : Nat) (n : Nat) :
    List (Ev α) :=
  asyncFailTrace sil d j n ++ [Ev.invoke]

/-! ## Step lemmas: one unfolding of each loop -/

theorem intentar_ok {α : Type} {conf : Config} {funcion : Nat → Except JsError α}
    {j : Nat} {a : α} (h : funcion j = Except.ok a) :
    intentar conf funcion j = ([Ev.invoke], Except.ok a) := by
  rw [intentar.eq_def, h]

theorem intentar_err_cont {α : Type} {conf : Config}
    {funcion : Nat → Except JsError α} {j : Nat} {e : JsError}
    (h : funcion j = Except.error e) (hlt : j + 1 < conf.maxIntentos) :
    intentar conf funcion j =
      (Ev.invoke :: warnIf conf.silencio (j + 1) ++
          Ev.wait conf.demoraEntreIntentos :: (intentar conf funcion (j + 1)).1,
        (intentar conf funcion (j + 1)).2) := by
  rw [intentar.eq_def, h]
  simp [hlt, warnIf]

theorem intentar_err_last {α : Type} {conf : Config}
    {funcion : Nat → Except JsError α} {j : Nat} {e : JsError}
    (h : funcion j = Except.error e) (hge : ¬ j + 1 < conf.maxIntentos) :
    intentar conf funcion j =
      (Ev.invoke :: warnIf conf.silencio (j + 1), Except.error todosError) := by
  rw [intentar.eq_def, h]
  simp [hge, warnIf]

theorem asyncBucle_stop {α : Type} {config : AsyncConfig}
    {funcion : Nat → Except JsError α} {j : Nat}
    (hge : ¬ j < config.maxIntentos) :
    asyncBucle funcion config j = ([], Except.error todosError) := by
  rw [asyncBucle.eq_def]
  simp [hge]

theorem asyncBucle_ok {α : Type} {config : AsyncConfig}
    {funcion : Nat → Except JsError α} {j : Nat} {a : α}
    (hlt : j < config.maxIntentos) (h : funcion j = Except.ok a) :
    asyncBucle funcion config j = ([Ev.invoke], Except.ok a) := by
  rw [asyncBucle.eq_def]
  simp [hlt, h]

theorem asyncBucle_err {α : Type} {config : AsyncConfig}
    {funcion : Nat → Except JsError α} {j : Nat} {e : JsError}
    (hlt : j < config.maxIntentos) (h : funcion j = Except.error e) :
    asyncBucle funcion config j =
      (Ev.invoke :: warnIf config.silencio (j + 1) ++
          Ev.wait (orNat config.demoraEntreIntentos 1000) ::
            (asyncBucle funcion config (j + 1)).1,
        (asyncBucle funcion config (j + 1)).2) := by
  rw [asyncBucle.eq_def]
  simp [hlt, h, warnIf]

theorem intentarEjecucion_ok {α : Type} {s : TareaLiteral α} {a : α}
    (h : s.ejecutar s.llamadas = Except.ok a) :
    intentarEjecucion s =
      (([Ev.invoke], Except.ok a), { s with llamadas := s.llamadas + 1 }) := by
  rw [intentarEjecucion.eq_def, h]

theorem intentarEjecucion_err_cont {α : Type} {s : TareaLiteral α} {e : JsError}
    (h : s.ejecutar s.llamadas = Except.error e)
    (hlt : s.intentosRealizados + 1 < s.reintentos) :
    intentarEjecucion s =
      ((Ev.invoke :: warnIf s.modoSilencioso (s.intentosRealizados + 1) ++
          Ev.wait s.demoraEntreIntentos ::
            (intentarEjecucion (litAvance s)).1.1,
        (intentarEjecucion (litAvance s)).1.2),
        (intentarEjecucion (litAvance s)).2) := by
  rw [intentarEjecucion.eq_def, h]
  simp [hlt, warnIf, litAvance]

theorem intentarEjecucion_err_last {α : Type} {s : TareaLiteral α} {e : JsError}
    (h : s.ejecutar s.llamadas = Except.error e)
    (hge : ¬ s.intentosRealizados + 1 < s.reintentos) :
    intentarEjecucion s =
      ((Ev.invoke :: warnIf s.modoSilencioso (s.intentosRealizados + 1),
          Except.error todosError), litAvance s) := by
  rw [intentarEjecucion.eq_def, h]
  simp [hge, warnIf, litAvance]

/-! ## Lemmas about the closed-form traces -/

theorem numsFrom_snoc : ∀ (n j : Nat),
    numsFrom j n ++ [j + n] = numsFrom j (n + 1) := by
  intro n
  induction n with
  | zero => intro j; simp [numsFrom]
  | succ n ih =>
      intro j
      have h1 : j + (n + 1) = (j + 1) + n := by omega
      simp only [numsFrom, List.cons_append, h1, ih (j + 1)]

theorem countInvoke_asyncFailTrace {α : Type} (sil : Bool) (d : Nat) :
    ∀ (n j : Nat), countInvoke (asyncFailTrace (α := α) sil d j n) = n := by
  intro n
  induction n with
  | zero => intro j; simp [asyncFailTrace, countInvoke]
  | succ n ih =>
      intro j
      cases sil <;>
        simp [asyncFailTrace, countInvoke, warnIf, List.countP_cons,
          List.countP_append, countInvoke] at ih ⊢ <;>
        simp [ih]

theorem countWait_asyncFailTrace {α : Type} (sil : Bool) (d : Nat) :
    ∀ (n j : Nat), countWait (asyncFailTrace (α := α) sil d j n) = n := by
  intro n
  induction n with
  | zero => intro j; simp [asyncFailTrace, countWait]
  | succ n ih =>
      intro j
      cases sil <;>
        simp [asyncFailTrace, countWait, warnIf, List.countP_cons,
          List.countP_append] at ih ⊢ <;>
        simp [ih]

theorem warnNums_asyncFailTrace {α : Type} (sil : Bool) (d : Nat) :
    ∀ (n j : Nat), warnNums (asyncFailTrace (α := α) sil d j n) =
      if sil then [] else numsFrom (j + 1) n := by
  intro n
  induction n with
  | zero => intro j; cases sil <;> simp [asyncFailTrace, warnNums, numsFrom]
  | succ n ih =>
      intro j
      cases sil <;>
        simp [asyncFailTrace, warnNums, warnIf, numsFrom, ih]

theorem errLogs_asyncFailTrace {α : Type} (sil : Bool) (d : Nat) :
    ∀ (n j : Nat), errLogs (asyncFailTrace (α := α) sil d j n) = [] := by
  intro n
  induction n with
  | zero => intro j; simp [asyncFailTrace, errLogs]
  | succ n ih =>
      intro j
      cases sil <;> simp [asyncFailTrace, errLogs, warnIf, ih]

theorem cbCalls_asyncFailTrace {α : Type} (sil : Bool) (d : Nat) :
    ∀ (n j : Nat), cbCalls (asyncFailTrace (α := α) sil d j n) = [] := by
  intro n
  induction n with
  | zero => intro j; simp [asyncFailTrace, cbCalls]
  | succ n ih =>
      intro j
      cases sil <;> simp [asyncFailTrace, cbCalls, warnIf, ih]

theorem asyncFailTrace_ne_nil {α : Type} (sil : Bool) (d j n : Nat)
    (hn : 1 ≤ n) : asyncFailTrace (α := α) sil d j n ≠ [] := by
  match n, hn with
  | n + 1, _ => cases sil <;> simp [asyncFailTrace, warnIf]

theorem head_asyncFailTrace {α : Type} (sil : Bool) (d j n : Nat)
    (hn : 1 ≤ n) :
    (asyncFailTrace (α := α) sil d j n).head? = some Ev.invoke := by
  match n, hn with
  | n + 1, _ => simp [asyncFailTrace]

theorem getLast?_cons_eq {β : Type} {l : List β} {b : β}
    (h : l.getLast? = some b) (a : β) : (a :: l).getLast? = some b := by
  rw [show a :: l = [a] ++ l from rfl, List.getLast?_append, h]
  rfl

theorem getLast_asyncFailTrace {α : Type} (sil : Bool) (d : Nat) :
    ∀ (n j : Nat), 1 ≤ n →
      (asyncFailTrace (α := α) sil d j n).getLast? = some (Ev.wait d) := by
  intro n
  induction n with
  | zero => intro j h; omega
  | succ n ih =>
      intro j _
      by_cases hn : 1 ≤ n
      · have h := ih (j + 1) hn
        have h1 := getLast?_cons_eq h (Ev.wait d)
        cases sil
        · simpa [asyncFailTrace, warnIf] using
            getLast?_cons_eq (getLast?_cons_eq h1 (Ev.warn (j + 1))) Ev.invoke
        · simpa [asyncFailTrace, warnIf] using getLast?_cons_eq h1 Ev.invoke
      · have hn0 : n = 0 := by omega
        subst hn0
        cases sil <;> simp [asyncFailTrace, warnIf]

theorem waitsBetween_append_asyncFailTrace {α : Type} (sil : Bool) (d : Nat) :
    ∀ (n j : Nat) (l : List (Ev α)), waitsBetween l = true →
      l.head? = some Ev.invoke →
      waitsBetween (asyncFailTrace sil d j n ++ l) = true := by
  intro n
  induction n with
  | zero => intro j l hl _; simpa [asyncFailTrace] using hl
  | succ n ih =>
      intro j l hl hhead
      have hrec := ih (j + 1) l hl hhead
      have hhead2 : (asyncFailTrace (α := α) sil d (j + 1) n ++ l).head? =
          some Ev.invoke := by
        by_cases hn : 1 ≤ n
        · have hne := asyncFailTrace_ne_nil (α := α) sil d (j + 1) n hn
          rw [List.head?_append_of_ne_nil _ hne]
          exact head_asyncFailTrace sil d (j + 1) n hn
        · have hn0 : n = 0 := by omega
          subst hn0
          simpa [asyncFailTrace] using hhead
      cases sil <;>
        simp [asyncFailTrace, warnIf, waitsBetween, hrec, hhead2]

theorem waitsBetween_getLast {α : Type} :
    ∀ (evs : List (Ev α)), waitsBetween evs = true →
      ∀ ms, evs.getLast? ≠ some (Ev.wait ms) := by
  intro evs
  induction evs with
  | nil => intro _ ms; simp
  | cons e resto ih =>
      intro h ms
      cases resto with
      | nil =>
          cases e <;> simp [waitsBetween] at h ⊢
      | cons e2 resto2 =>
          rw [List.getLast?_cons_cons]
          apply ih _ ms
          cases e <;> simp [waitsBetween] at h <;> tauto

theorem countInvoke_claseFailTrace {α : Type} (sil : Bool) (d j n : Nat) :
    countInvoke (claseFailTrace (α := α) sil d j n) = n := by
  cases n with
  | zero => simp [claseFailTrace, countInvoke]
  | succ n =>
      have h := countInvoke_asyncFailTrace (α := α) sil d n j
      simp only [countInvoke] at h
      cases sil <;>
        simp [claseFailTrace, countInvoke, warnIf, List.countP_append,
          List.countP_cons, h]

theorem countWait_claseFailTrace {α : Type} (sil : Bool) (d j n : Nat) :
    countWait (claseFailTrace (α := α) sil d j n) = n - 1 := by
  cases n with
  | zero => simp [claseFailTrace, countWait]
  | succ n =>
      have h := countWait_asyncFailTrace (α := α) sil d n j
      simp only [countWait] at h
      cases sil <;>
        simp [claseFailTrace, countWait, warnIf, List.countP_append,
          List.countP_cons, h]

theorem warnNums_claseFailTrace {α : Type} (sil : Bool) (d j n : Nat) :
    warnNums (claseFailTrace (α := α) sil d j n) =
      if sil then [] else numsFrom (j + 1) n := by
  cases n with
  | zero => cases sil <;> simp [claseFailTrace, warnNums, numsFrom]
  | succ n =>
      have h := warnNums_asyncFailTrace (α := α) sil d n j
      cases sil
      · have h2 : j + n + 1 = (j + 1) + n := by omega
        simp [claseFailTrace, warnNums_append, h, warnIf, warnNums, h2,
          numsFrom_snoc]
      · simp [claseFailTrace, warnNums_append, h, warnIf, warnNums]

theorem errLogs_claseFailTrace {α : Type} (sil : Bool) (d j n : Nat) :
    errLogs (claseFailTrace (α := α) sil d j n) = [] := by
  cases n with
  | zero => simp [claseFailTrace, errLogs]
  | succ n =>
      have h := errLogs_asyncFailTrace (α := α) sil d n j
      cases sil <;> simp [claseFailTrace, errLogs_append, h, errLogs, warnIf]

theorem cbCalls_claseFailTrace {α : Type} (sil : Bool) (d j n : Nat) :
    cbCalls (claseFailTrace (α := α) sil d j n) = [] := by
  cases n with
  | zero => simp [claseFailTrace, cbCalls]
  | succ n =>
      have h := cbCalls_asyncFailTrace (α := α) sil d n j
      cases sil <;> simp [claseFailTrace, cbCalls_append, h, cbCalls, warnIf]

theorem head_claseFailTrace {α : Type} (sil : Bool) (d j n : Nat)
    (hn : 1 ≤ n) :
    (claseFailTrace (α := α) sil d j n).head? = some Ev.invoke := by
  match n, hn with
  | n + 1, _ =>
      by_cases h : 1 ≤ n
      · have hne := asyncFailTrace_ne_nil (α := α) sil d j n h
        simp [claseFailTrace, List.head?_append_of_ne_nil _ hne,
          head_asyncFailTrace sil d j n h]
      · have hn0 : n = 0 := by omega
        subst hn0
        simp [claseFailTrace, asyncFailTrace]

theorem waitsBetween_claseFailTrace {α : Type} (sil : Bool) (d j n : Nat) :
    waitsBetween (claseFailTrace (α := α) sil d j n) = true := by
  cases n with
  | zero => simp [claseFailTrace, waitsBetween]
  | succ n =>
      apply waitsBetween_append_asyncFailTrace
      · cases sil <;> simp [warnIf, waitsBetween]
      · simp

theorem countInvoke_riseTrace {α : Type} (sil : Bool) (d j n : Nat) :
    countInvoke (riseTrace (α := α) sil d j n) = n + 1 := by
  have h := countInvoke_asyncFailTrace (α := α) sil d n j
  simp only [countInvoke] at h
  simp [riseTrace, countInvoke, List.countP_append, h]

theorem countWait_riseTrace {α : Type} (sil : Bool) (d j n : Nat) :
    countWait (riseTrace (α := α) sil d j n) = n := by
  have h := countWait_asyncFailTrace (α := α) sil d n j
  simp only [countWait] at h
  simp [riseTrace, countWait, List.countP_append, h]

theorem warnNums_riseTrace {α : Type} (sil : Bool) (d j n : Nat) :
    warnNums (riseTrace (α := α) sil d j n) =
      if sil then [] else numsFrom (j + 1) n := by
  have h := warnNums_asyncFailTrace (α := α) sil d n j
  simp [riseTrace, warnNums_append, h, warnNums]

theorem errLogs_riseTrace {α : Type} (sil : Bool) (d j n : Nat) :
    errLogs (riseTrace (α := α) sil d j n) = [] := by
  have h := errLogs_asyncFailTrace (α := α) sil d n j
  simp [riseTrace, errLogs_append, h, errLogs]

theorem cbCalls_riseTrace {α : Type} (sil : Bool) (d j n : Nat) :
    cbCalls (riseTrace (α := α) sil d j n) = [] := by
  have h := cbCalls_asyncFailTrace (α := α) sil d n j
  simp [riseTrace, cbCalls_append, h, cbCalls]

theorem head_riseTrace {α : Type} (sil : Bool) (d j n : Nat) :
    (riseTrace (α := α) sil d j n).head? = some Ev.invoke := by
  by_cases h : 1 ≤ n
  · have hne := asyncFailTrace_ne_nil (α := α) sil d j n h
    simp [riseTrace, List.head?_append_of_ne_nil _ hne,
      head_asyncFailTrace sil d j n h]
  · have hn0 : n = 0 := by omega
    subst hn0
    simp [riseTrace, asyncFailTrace]

theorem getLast_riseTrace {α : Type} (sil : Bool) (d j n : Nat) :
    (riseTrace (α := α) sil d j n).getLast? = some Ev.invoke := by
  simp [riseTrace]

theorem waitsBetween_riseTrace {α : Type} (sil : Bool) (d j n : Nat) :
    waitsBetween (riseTrace (α := α) sil d j n) = true := by
  apply waitsBetween_append_asyncFailTrace
  · simp [waitsBetween]
  · simp

/-! ## Closed forms of the three retry loops -/

/-- Class variant, operation failing on every probed invocation:
`intentar` from counter `j` with `n ≥ 1` attempts left produces the
class failure shape and the fixed exhaustion rejection. -/
theorem intentar_todosFallan {α : Type} (conf : Config)
    (funcion : Nat → Except JsError α)
    (hf : ∀ i, i < conf.maxIntentos → ∃ e, funcion i = Except.error e) :
    ∀ (n j : Nat), conf.maxIntentos = j + n → 1 ≤ n →
      intentar conf funcion j =
        (claseFailTrace conf.silencio conf.demoraEntreIntentos j n,
          Except.error todosError) := by
  intro n
  induction n with
  | zero => intro j _ h1; omega
  | succ n ih =>
      intro j hj _
      obtain ⟨e, he⟩ := hf j (by omega)
      by_cases hn : 1 ≤ n
      · have hlt : j + 1 < conf.maxIntentos := by omega
        rw [intentar_err_cont he hlt, ih (j + 1) (by omega) hn]
        obtain ⟨m, rfl⟩ : ∃ m, n = m + 1 := ⟨n - 1, by omega⟩
        have h2 : j + 1 + m + 1 = j + (m + 1) + 1 := by omega
        simp [claseFailTrace, asyncFailTrace, h2]
      · have hn0 : n = 0 := by omega
        subst hn0
        have hge : ¬ j + 1 < conf.maxIntentos := by omega
        rw [intentar_err_last he hge]
        simp [claseFailTrace, asyncFailTrace]

/-- Class variant, operation failing on the first `m` invocations and
succeeding on invocation index `m < maxIntentos`: `intentar` from
counter `j ≤ m` produces the rise shape and the successful result. -/
theorem intentar_exitoEn {α : Type} (conf : Config)
    (funcion : Nat → Except JsError α) {m : Nat} {a : α}
    (hm : m < conf.maxIntentos)
    (hfail : ∀ i, i < m → ∃ e, funcion i = Except.error e)
    (hok : funcion m = Except.ok a) :
    ∀ (n j : Nat), m = j + n →
      intentar conf funcion j =
        (riseTrace conf.silencio conf.demoraEntreIntentos j n,
          Except.ok a) := by
  intro n
  induction n with
  | zero =>
      intro j hj
      have hja : funcion j = Except.ok a := by rw [show j = m by omega]; exact hok
      rw [intentar_ok hja]
      simp [riseTrace, asyncFailTrace]
  | succ n ih =>
      intro j hj
      obtain ⟨e, he⟩ := hfail j (by omega)
      have hlt : j + 1 < conf.maxIntentos := by omega
      rw [intentar_err_cont he hlt, ih (j + 1) (by omega)]
      simp [riseTrace, asyncFailTrace]

/-- Async variant, operation failing on every probed invocation: the
`while` loop from counter `j` with `n` iterations left produces the
async failure shape (a delay after every failed attempt) and the fixed
exhaustion rejection. -/
theorem asyncBucle_todosFallan {α : Type} (config : AsyncConfig)
    (funcion : Nat → Except JsError α)
    (hf : ∀ i, i < config.maxIntentos → ∃ e, funcion i = Except.error e) :
    ∀ (n j : Nat), config.maxIntentos = j + n →
      asyncBucle funcion config j =
        (asyncFailTrace config.silencio (orNat config.demoraEntreIntentos 1000)
          j n, Except.error todosError) := by
  intro n
  induction n with
  | zero =>
      intro j hj
      rw [asyncBucle_stop (by omega)]
      simp [asyncFailTrace]
  | succ n ih =>
      intro j hj
      obtain ⟨e, he⟩ := hf j (by omega)
      rw [asyncBucle_err (by omega) he, ih (j + 1) (by omega)]
      simp [asyncFailTrace]

/-- Async variant, operation failing on the first `m` invocations and
succeeding on invocation index `m < maxIntentos`. -/
theorem asyncBucle_exitoEn {α : Type} (config : AsyncConfig)
    (funcion : Nat → Except JsError α) {m : Nat} {a : α}
    (hm : m < config.maxIntentos)
    (hfail : ∀ i, i < m → ∃ e, funcion i = Except.error e)
    (hok : funcion m = Except.ok a) :
    ∀ (n j : Nat), m = j + n →
      asyncBucle funcion config j =
        (riseTrace config.silencio (orNat config.demoraEntreIntentos 1000) j n,
          Except.ok a) := by
  intro n
  induction n with
  | zero =>
      intro j hj
      have hja : funcion j = Except.ok a := by rw [show j = m by omega]; exact hok
      rw [asyncBucle_ok (by omega) hja]
      simp [riseTrace, asyncFailTrace]
  | succ n ih =>
      intro j hj
      obtain ⟨e, he⟩ := hfail j (by omega)
      rw [asyncBucle_err (by omega) he, ih (j + 1) (by omega)]
      simp [riseTrace, asyncFailTrace]

/-- Literal variant, operation failing on every invocation:
`_intentarEjecucion` produces the class failure shape (warn numbers
continuing from the entry value of `_intentosRealizados`), the fixed
exhaustion rejection, and leaves `_intentosRealizados = reintentos`. -/
theorem intentarEjecucion_todosFallan {α : Type} :
    ∀ (n : Nat) (s : TareaLiteral α),
      (∀ i, ∃ e, s.ejecutar i = Except.error e) →
      s.reintentos = s.intentosRealizados + n → 1 ≤ n →
      intentarEjecucion s =
        ((claseFailTrace s.modoSilencioso s.demoraEntreIntentos
            s.intentosRealizados n, Except.error todosError),
          { s with intentosRealizados := s.reintentos,
                   llamadas := s.llamadas + n }) := by
  intro n
  induction n with
  | zero => intro s _ _ h1; omega
  | succ n ih =>
      intro s hf hr _
      obtain ⟨e, he⟩ := hf s.llamadas
      by_cases hn : 1 ≤ n
      · have hlt : s.intentosRealizados + 1 < s.reintentos := by omega
        rw [intentarEjecucion_err_cont he hlt]
        rw [ih (litAvance s) (by simpa [litAvance] using hf)
          (by simp [litAvance]; omega) hn]
        obtain ⟨m, rfl⟩ : ∃ m, n = m + 1 := ⟨n - 1, by omega⟩
        have h2 : s.intentosRealizados + 1 + m + 1 =
            s.intentosRealizados + (m + 1) + 1 := by omega
        simp [litAvance, claseFailTrace, asyncFailTrace, h2]
        omega
      · have hn0 : n = 0 := by omega
        subst hn0
        have hge : ¬ s.intentosRealizados + 1 < s.reintentos := by omega
        rw [intentarEjecucion_err_last he hge]
        simp [litAvance, claseFailTrace, asyncFailTrace]
        omega

/-! ## Composition lemmas at the start() level -/

theorem iniciar_todosFallan {α : Type} (t : Tarea α)
    (hN : 1 ≤ t.config.maxIntentos)
    (hf : ∀ i, i < t.config.maxIntentos → ∃ e, t.ejecutar i = Except.error e) :
    iniciar t =
      (claseFailTrace t.config.silencio t.config.demoraEntreIntentos 0
          t.config.maxIntentos ++ [Ev.errLog t.nombre todosError],
        Except.error todosError) := by
  have h := intentar_todosFallan t.config t.ejecutar hf
    t.config.maxIntentos 0 (by omega) hN
  simp [iniciar, ejecutarConResiliencia, h]

theorem iniciar_exito_sinDespues {α : Type} (t : Tarea α) {m : Nat} {a : α}
    (hm : m < t.config.maxIntentos)
    (hfail : ∀ i, i < m → ∃ e, t.ejecutar i = Except.error e)
    (hok : t.ejecutar m = Except.ok a) (hd : t.despues = none) :
    iniciar t =
      (riseTrace t.config.silencio t.config.demoraEntreIntentos 0 m,
        Except.ok a) := by
  have h := intentar_exitoEn t.config t.ejecutar hm hfail hok m 0 (by omega)
  simp [iniciar, ejecutarConResiliencia, h, hd]

theorem iniciar_exito_conDespues {α : Type} (t : Tarea α) {m : Nat} {a : α}
    {f : α → Except JsError Unit}
    (hm : m < t.config.maxIntentos)
    (hfail : ∀ i, i < m → ∃ e, t.ejecutar i = Except.error e)
    (hok : t.ejecutar m = Except.ok a) (hd : t.despues = some f)
    (hfa : f a = Except.ok ()) :
    iniciar t =
      (riseTrace t.config.silencio t.config.demoraEntreIntentos 0 m ++
          [Ev.cb a], Except.ok a) := by
  have h := intentar_exitoEn t.config t.ejecutar hm hfail hok m 0 (by omega)
  simp [iniciar, ejecutarConResiliencia, h, hd, hfa]

theorem iniciar_despuesFalla {α : Type} (t : Tarea α) {m : Nat} {a : α}
    {f : α → Except JsError Unit} {e : JsError}
    (hm : m < t.config.maxIntentos)
    (hfail : ∀ i, i < m → ∃ e2, t.ejecutar i = Except.error e2)
    (hok : t.ejecutar m = Except.ok a) (hd : t.despues = some f)
    (hfa : f a = Except.error e) :
    iniciar t =
      (riseTrace t.config.silencio t.config.demoraEntreIntentos 0 m ++
          [Ev.cb a, Ev.errLog t.nombre e], Except.error e) := by
  have h := intentar_exitoEn t.config t.ejecutar hm hfail hok m 0 (by omega)
  simp [iniciar, ejecutarConResiliencia, h, hd, hfa]

theorem asyncIniciar_todosFallan {α : Type} (t : AsyncOpciones α)
    (hf : ∀ i, i < (asyncPrepararConfiguracion t.configuracion).maxIntentos →
      ∃ e, t.ejecutar i = Except.error e) :
    asyncIniciar t =
      (asyncFailTrace (asyncPrepararConfiguracion t.configuracion).silencio
          (orNat (asyncPrepararConfiguracion t.configuracion).demoraEntreIntentos
            1000) 0 (asyncPrepararConfiguracion t.configuracion).maxIntentos ++
          [Ev.errLog t.nombre todosError],
        Except.ok ()) := by
  have h := asyncBucle_todosFallan (asyncPrepararConfiguracion t.configuracion)
    t.ejecutar hf
    (asyncPrepararConfiguracion t.configuracion).maxIntentos 0 (by omega)
  simp [asyncIniciar, asyncEjecutarConResiliencia, h]

theorem asyncIniciar_exito_sinDespues {α : Type} (t : AsyncOpciones α)
    {m : Nat} {a : α}
    (hm : m < (asyncPrepararConfiguracion t.configuracion).maxIntentos)
    (hfail : ∀ i, i < m → ∃ e, t.ejecutar i = Except.error e)
    (hok : t.ejecutar m = Except.ok a) (hd : t.despues = none) :
    asyncIniciar t =
      (riseTrace (asyncPrepararConfiguracion t.configuracion).silencio
          (orNat (asyncPrepararConfiguracion t.configuracion).demoraEntreIntentos
            1000) 0 m, Except.ok ()) := by
  have h := asyncBucle_exitoEn (asyncPrepararConfiguracion t.configuracion)
    t.ejecutar hm hfail hok m 0 (by omega)
  simp [asyncIniciar, asyncEjecutarConResiliencia, h, hd]

theorem asyncIniciar_exito_conDespues {α : Type} (t : AsyncOpciones α)
    {m : Nat} {a : α} {f : α → Except JsError Unit}
    (hm : m < (asyncPrepararConfiguracion t.configuracion).maxIntentos)
    (hfail : ∀ i, i < m → ∃ e, t.ejecutar i = Except.error e)
    (hok : t.ejecutar m = Except.ok a) (hd : t.despues = some f)
    (hfa : f a = Except.ok ()) :
    asyncIniciar t =
      (riseTrace (asyncPrepararConfiguracion t.configuracion).silencio
          (orNat (asyncPrepararConfiguracion t.configuracion).demoraEntreIntentos
            1000) 0 m ++ [Ev.cb a], Except.ok ()) := by
  have h := asyncBucle_exitoEn (asyncPrepararConfiguracion t.configuracion)
    t.ejecutar hm hfail hok m 0 (by omega)
  simp [asyncIniciar, asyncEjecutarConResiliencia, h, hd, hfa]

theorem asyncIniciar_despuesFalla {α : Type} (t : AsyncOpciones α)
    {m : Nat} {a : α} {f : α → Except JsError Unit} {e : JsError}
    (hm : m < (asyncPrepararConfiguracion t.configuracion).maxIntentos)
    (hfail : ∀ i, i < m → ∃ e2, t.ejecutar i = Except.error e2)
    (hok : t.ejecutar m = Except.ok a) (hd : t.despues = some f)
    (hfa : f a = Except.error e) :
    asyncIniciar t =
      (riseTrace (asyncPrepararConfiguracion t.configuracion).silencio
          (orNat (asyncPrepararConfiguracion t.configuracion).demoraEntreIntentos
            1000) 0 m ++ [Ev.cb a, Ev.errLog t.nombre e], Except.ok ()) := by
  have h := asyncBucle_exitoEn (asyncPrepararConfiguracion t.configuracion)
    t.ejecutar hm hfail hok m 0 (by omega)
  simp [asyncIniciar, asyncEjecutarConResiliencia, h, hd, hfa]

/-- The async variant `iniciar` resolves with `undefined` on every run:
every failure is caught inside its `try`/`catch` and only logged. -/
theorem asyncIniciar_resuelve {α : Type} (t : AsyncOpciones α) :
    (asyncIniciar t).2 = Except.ok () := by
  simp only [asyncIniciar]
  split
  · split
    · rfl
    · split <;> rfl
  · rfl

theorem litIniciar_todosFallan {α : Type} (s : TareaLiteral α)
    (hN : 1 ≤ s.reintentos)
    (hf : ∀ i, ∃ e, s.ejecutar i = Except.error e) :
    litIniciar s =
      ((claseFailTrace s.modoSilencioso s.demoraEntreIntentos 0 s.reintentos ++
          [Ev.errLog s.nombre todosError], Except.error todosError),
        { s with intentosRealizados := s.reintentos,
                 llamadas := s.llamadas + s.reintentos }) := by
  have h := intentarEjecucion_todosFallan s.reintentos
    { s with intentosRealizados := 0 } (by simpa using hf) (by simp) (by omega)
  simp only [litIniciar, h]

/-! ## Run characterization: every run is a first-success run or an
all-fail run -/

theorem corrida_clase {α : Type} (conf : Config)
    (funcion : Nat → Except JsError α) (hN : 1 ≤ conf.maxIntentos) :
    (∃ m a, m < conf.maxIntentos ∧ funcion m = Except.ok a ∧
      (∀ i, i < m → ∃ e, funcion i = Except.error e) ∧
      ejecutarConResiliencia funcion conf =
        (riseTrace conf.silencio conf.demoraEntreIntentos 0 m,
          Except.ok a)) ∨
    ((∀ i, i < conf.maxIntentos → ∃ e, funcion i = Except.error e) ∧
      ejecutarConResiliencia funcion conf =
        (claseFailTrace conf.silencio conf.demoraEntreIntentos 0
          conf.maxIntentos, Except.error todosError)) := by
  classical
  by_cases h : ∃ m, m < conf.maxIntentos ∧ ∃ a, funcion m = Except.ok a
  · left
    obtain ⟨m0, hm0, a0, ha0⟩ := h
    have hex : ∃ m, ∃ a, funcion m = Except.ok a := ⟨m0, a0, ha0⟩
    obtain ⟨a, ha⟩ := Nat.find_spec hex
    have hle : Nat.find hex ≤ m0 := Nat.find_min' hex ⟨a0, ha0⟩
    have hlt : Nat.find hex < conf.maxIntentos := by omega
    have hfail : ∀ i, i < Nat.find hex → ∃ e, funcion i = Except.error e := by
      intro i hi
      have hni := Nat.find_min hex hi
      cases hfi : funcion i with
      | error e => exact ⟨e, rfl⟩
      | ok b => exact absurd ⟨b, hfi⟩ hni
    exact ⟨Nat.find hex, a, hlt, ha, hfail,
      intentar_exitoEn conf funcion hlt hfail ha (Nat.find hex) 0 (by omega)⟩
  · right
    have hfail : ∀ i, i < conf.maxIntentos → ∃ e, funcion i = Except.error e := by
      intro i hi
      cases hfi : funcion i with
      | error e => exact ⟨e, rfl⟩
      | ok b => exact absurd ⟨i, hi, b, hfi⟩ h
    exact ⟨hfail, intentar_todosFallan conf funcion hfail conf.maxIntentos 0
      (by omega) hN⟩

theorem corrida_async {α : Type} (config : AsyncConfig)
    (funcion : Nat → Except JsError α) :
    (∃ m a, m < config.maxIntentos ∧ funcion m = Except.ok a ∧
      (∀ i, i < m → ∃ e, funcion i = Except.error e) ∧
      asyncEjecutarConResiliencia funcion config =
        (riseTrace config.silencio (orNat config.demoraEntreIntentos 1000) 0 m,
          Except.ok a)) ∨
    ((∀ i, i < config.maxIntentos → ∃ e, funcion i = Except.error e) ∧
      asyncEjecutarConResiliencia funcion config =
        (asyncFailTrace config.silencio (orNat config.demoraEntreIntentos 1000)
          0 config.maxIntentos, Except.error todosError)) := by
  classical
  by_cases h : ∃ m, m < config.maxIntentos ∧ ∃ a, funcion m = Except.ok a
  · left
    obtain ⟨m0, hm0, a0, ha0⟩ := h
    have hex : ∃ m, ∃ a, funcion m = Except.ok a := ⟨m0, a0, ha0⟩
    obtain ⟨a, ha⟩ := Nat.find_spec hex
    have hle : Nat.find hex ≤ m0 := Nat.find_min' hex ⟨a0, ha0⟩
    have hlt : Nat.find hex < config.maxIntentos := by omega
    have hfail : ∀ i, i < Nat.find hex → ∃ e, funcion i = Except.error e := by
      intro i hi
      have hni := Nat.find_min hex hi
      cases hfi : funcion i with
      | error e => exact ⟨e, rfl⟩
      | ok b => exact absurd ⟨b, hfi⟩ hni
    exact ⟨Nat.find hex, a, hlt, ha, hfail,
      asyncBucle_exitoEn config funcion hlt hfail ha (Nat.find hex) 0
        (by omega)⟩
  · right
    have hfail : ∀ i, i < config.maxIntentos → ∃ e, funcion i = Except.error e := by
      intro i hi
      cases hfi : funcion i with
      | error e => exact ⟨e, rfl⟩
      | ok b => exact absurd ⟨i, hi, b, hfi⟩ h
    exact ⟨hfail, asyncBucle_todosFallan config funcion hfail
      config.maxIntentos 0 (by omega)⟩

/-! ## Small helpers and concrete material for witnesses -/

theorem countInvoke_append {α : Type} (l1 l2 : List (Ev α)) :
    countInvoke (l1 ++ l2) = countInvoke l1 + countInvoke l2 := by
  simp [countInvoke, List.countP_append]

theorem countWait_append {α : Type} (l1 l2 : List (Ev α)) :
    countWait (l1 ++ l2) = countWait l1 + countWait l2 := by
  simp [countWait, List.countP_append]

/-- 1 when a run outcome is a success, 0 when it is a failure. -/
def exitoso {α : Type} : Except JsError α → Nat
  | Except.ok _ => 1
  | Except.error _ => 0

/-- A sample operation rejection. -/
def eBoom : JsError := ⟨"boom"⟩

/-- A sample callback rejection. -/
def eCb : JsError := ⟨"callback boom"⟩

/-- An operation that fails on every invocation. -/
def fallaSiempre : Nat → Except JsError Nat := fun _ => Except.error eBoom

/-- An operation that fails on its first `k` invocations and succeeds
with `v` from invocation index `k` on. -/
def exitoTras (k v : Nat) : Nat → Except JsError Nat :=
  fun i => if i < k then Except.error eBoom else Except.ok v

/-! ## Claims -/

/-- C1 (counterexample to the claim as stated): in the async variant with
maxAttempts = 1 and an always-failing operation, the retry loop performs
1 delay, not N−1 = 0, and the delay comes after the final failed attempt
(it is the last recorded event). -/
theorem c1_contraejemplo :
    countWait (asyncEjecutarConResiliencia fallaSiempre ⟨1, false, some 5⟩).1 = 1
    ∧ (asyncEjecutarConResiliencia fallaSiempre ⟨1, false, some 5⟩).1.getLast? =
        some (Ev.wait 5) := by
  have h := asyncBucle_todosFallan ⟨1, false, some 5⟩ fallaSiempre
    (fun i _ => ⟨eBoom, rfl⟩) 1 0 rfl
  have e2 : asyncEjecutarConResiliencia fallaSiempre ⟨1, false, some 5⟩ =
      asyncBucle fallaSiempre ⟨1, false, some 5⟩ 0 := rfl
  rw [e2, h]
  constructor
  · simp [asyncFailTrace, countWait, warnIf, orNat]
  · simp [asyncFailTrace, warnIf, orNat]

/-- C1 (amended): for maxAttempts = N ≥ 1 and an always-failing operation,
the class (and literal) retry loop invokes the operation exactly N times,
performs exactly N−1 delays of delayMs, each strictly between two
attempts (the first event is an invocation, every delay is immediately
followed by an invocation, and no delay is last), and rejects with the
exhaustion error; the async variant's loop also invokes the operation
exactly N times but performs exactly N delays of the effective delay
(delayMs, or 1000 when unset), one after every failed attempt including
the final one, before rejecting with the exhaustion error. -/
theorem c1_amendado {α : Type} (N : Nat) (hN : 1 ≤ N)
    (conf : Config) (hmax : conf.maxIntentos = N)
    (config : AsyncConfig) (hamax : config.maxIntentos = N)
    (funcion : Nat → Except JsError α)
    (hf : ∀ i, ∃ e, funcion i = Except.error e) :
    ejecutarConResiliencia funcion conf =
      (claseFailTrace conf.silencio conf.demoraEntreIntentos 0 N,
        Except.error todosError)
    ∧ countInvoke (ejecutarConResiliencia funcion conf).1 = N
    ∧ countWait (ejecutarConResiliencia funcion conf).1 = N - 1
    ∧ (ejecutarConResiliencia funcion conf).1.head? = some Ev.invoke
    ∧ waitsBetween (ejecutarConResiliencia funcion conf).1 = true
    ∧ (∀ ms, (ejecutarConResiliencia funcion conf).1.getLast? ≠
        some (Ev.wait ms))
    ∧ asyncEjecutarConResiliencia funcion config =
      (asyncFailTrace config.silencio (orNat config.demoraEntreIntentos 1000)
        0 N, Except.error todosError)
    ∧ countInvoke (asyncEjecutarConResiliencia funcion config).1 = N
    ∧ countWait (asyncEjecutarConResiliencia funcion config).1 = N
    ∧ (asyncEjecutarConResiliencia funcion config).1.getLast? =
        some (Ev.wait (orNat config.demoraEntreIntentos 1000)) := by
  have e1 : ejecutarConResiliencia funcion conf = intentar conf funcion 0 := rfl
  have e2 : asyncEjecutarConResiliencia funcion config =
      asyncBucle funcion config 0 := rfl
  have h1 := intentar_todosFallan conf funcion (fun i _ => hf i) N 0
    (by omega) hN
  have h2 := asyncBucle_todosFallan config funcion (fun i _ => hf i) N 0
    (by omega)
  refine ⟨?_, ?_, ?_, ?_, ?_, ?_, ?_, ?_, ?_, ?_⟩
  · rw [e1, h1]
  · rw [e1, h1]; exact countInvoke_claseFailTrace _ _ _ _
  · rw [e1, h1]; exact countWait_claseFailTrace _ _ _ _
  · rw [e1, h1]; exact head_claseFailTrace _ _ _ _ hN
  · rw [e1, h1]; exact waitsBetween_claseFailTrace _ _ _ _
  · rw [e1, h1]
    exact waitsBetween_getLast _ (waitsBetween_claseFailTrace _ _ _ _)
  · rw [e2, h2]
  · rw [e2, h2]; exact countInvoke_asyncFailTrace _ _ _ _
  · rw [e2, h2]; exact countWait_asyncFailTrace _ _ _ _
  · rw [e2, h2]; exact getLast_asyncFailTrace _ _ _ _ hN

/-- Witness for C1 (amended) at N = 2: the class loop with delay 50 does
2 invocations and 1 delay; the async loop with delay 70 does 2 delays. -/
theorem c1_testigo :
    1 ≤ 2
    ∧ ejecutarConResiliencia fallaSiempre ⟨2, 50, false⟩ =
        (claseFailTrace false 50 0 2, Except.error todosError)
    ∧ countWait (ejecutarConResiliencia fallaSiempre ⟨2, 50, false⟩).1 = 2 - 1
    ∧ countWait (asyncEjecutarConResiliencia fallaSiempre ⟨2, false, some 70⟩).1 = 2 :=
  have h := c1_amendado 2 (by decide) ⟨2, 50, false⟩ rfl ⟨2, false, some 70⟩ rfl
    fallaSiempre (fun i => ⟨eBoom, rfl⟩)
  ⟨by decide, h.1, h.2.2.1, h.2.2.2.2.2.2.2.2.1⟩

/-- C2 (counterexample to the claim as stated): in the async variant, with
an always-failing operation and maxAttempts = 2, all attempts are
exhausted (the terminal error is logged with the task name), yet the
caller of start() receives a silent successful resolution carrying no
result — neither the operation's result nor a TaskExhaustedError
rejection. -/
theorem c2_contraejemplo :
    (asyncIniciar ⟨"TareaX", ⟨some 2, some 5, none⟩, fallaSiempre, none⟩).2 =
      Except.ok ()
    ∧ errLogs (asyncIniciar
        ⟨"TareaX", ⟨some 2, some 5, none⟩, fallaSiempre, none⟩).1 =
      [("TareaX", todosError)] := by
  have h := asyncIniciar_todosFallan
    ⟨"TareaX", ⟨some 2, some 5, none⟩, fallaSiempre, none⟩
    (fun i _ => ⟨eBoom, rfl⟩)
  rw [h]
  refine ⟨rfl, ?_⟩
  simp [errLogs_append, errLogs_asyncFailTrace, errLogs]

/-- C2 (amended): the class (and literal) variant's start() is a genuine
failure boundary — with an always-failing operation the caller receives
the exhaustion rejection, and with an eventually-successful operation
(and a callback that does not itself throw) the caller receives the
operation's result; the async variant's start(), however, always resolves
with undefined, reporting neither the result nor the failure. -/
theorem c2_amendado {α : Type}
    (t : Tarea α) (hN : 1 ≤ t.config.maxIntentos)
    (hf : ∀ i, ∃ e, t.ejecutar i = Except.error e)
    (t2 : Tarea α) {m : Nat} {a : α} (hm : m < t2.config.maxIntentos)
    (hfail : ∀ i, i < m → ∃ e, t2.ejecutar i = Except.error e)
    (hok : t2.ejecutar m = Except.ok a)
    (hcb : t2.despues = none ∨
      ∃ f, t2.despues = some f ∧ f a = Except.ok ())
    (t3 : AsyncOpciones α) :
    (iniciar t).2 = Except.error todosError
    ∧ (iniciar t2).2 = Except.ok a
    ∧ (asyncIniciar t3).2 = Except.ok () := by
  refine ⟨?_, ?_, asyncIniciar_resuelve t3⟩
  · rw [iniciar_todosFallan t hN (fun i _ => hf i)]
  · rcases hcb with hd | ⟨f, hd, hfa⟩
    · rw [iniciar_exito_sinDespues t2 hm hfail hok hd]
    · rw [iniciar_exito_conDespues t2 hm hfail hok hd hfa]

/-- Witness for C2 (amended): a class task with maxAttempts 2 that always
fails rejects with the exhaustion error; one that succeeds immediately
with 7 resolves with 7; an async task always resolves with undefined. -/
theorem c2_testigo :
    (iniciar ⟨"A", ⟨2, 5, false⟩, fallaSiempre, none⟩).2 =
      Except.error todosError
    ∧ (iniciar ⟨"B", ⟨2, 5, false⟩, exitoTras 0 7, none⟩).2 = Except.ok 7
    ∧ (asyncIniciar ⟨"C", ⟨some 2, none, none⟩, fallaSiempre, none⟩).2 =
      Except.ok () :=
  c2_amendado ⟨"A", ⟨2, 5, false⟩, fallaSiempre, none⟩ (by decide)
    (fun i => ⟨eBoom, rfl⟩)
    ⟨"B", ⟨2, 5, false⟩, exitoTras 0 7, none⟩ (m := 0) (a := 7) (by decide)
    (fun i hi => absurd hi (by omega)) rfl (Or.inl rfl)
    ⟨"C", ⟨some 2, none, none⟩, fallaSiempre, none⟩

/-- C3 (confirmed): for maxAttempts = N and an operation that fails on its
first k−1 invocations and succeeds on its k-th (1 ≤ k ≤ N), start() in
both the class and async variants invokes the operation exactly k times,
invokes the success callback exactly once with the k-th attempt's result,
and reports no failure to the caller (the class variant resolves with the
result, the async variant resolves). -/
theorem c3_teorema {α : Type} (N k : Nat) (hk : 1 ≤ k) (hkN : k ≤ N)
    (t : Tarea α) (a : α) (f : α → Except JsError Unit)
    (hmax : t.config.maxIntentos = N)
    (hfail : ∀ i, i < k - 1 → ∃ e, t.ejecutar i = Except.error e)
    (hok : t.ejecutar (k - 1) = Except.ok a)
    (hd : t.despues = some f) (hfa : f a = Except.ok ())
    (ta : AsyncOpciones α) (g : α → Except JsError Unit)
    (hamax : (asyncPrepararConfiguracion ta.configuracion).maxIntentos = N)
    (hafail : ∀ i, i < k - 1 → ∃ e, ta.ejecutar i = Except.error e)
    (haok : ta.ejecutar (k - 1) = Except.ok a)
    (had : ta.despues = some g) (hga : g a = Except.ok ()) :
    countInvoke (iniciar t).1 = k
    ∧ cbCalls (iniciar t).1 = [a]
    ∧ (iniciar t).2 = Except.ok a
    ∧ countInvoke (asyncIniciar ta).1 = k
    ∧ cbCalls (asyncIniciar ta).1 = [a]
    ∧ (asyncIniciar ta).2 = Except.ok () := by
  have hm : k - 1 < t.config.maxIntentos := by omega
  have ham : k - 1 < (asyncPrepararConfiguracion ta.configuracion).maxIntentos := by
    omega
  have h1 := iniciar_exito_conDespues t hm hfail hok hd hfa
  have h2 := asyncIniciar_exito_conDespues ta ham hafail haok had hga
  refine ⟨?_, ?_, ?_, ?_, ?_, ?_⟩
  · rw [h1]
    show countInvoke (_ ++ _) = k
    rw [countInvoke_append, countInvoke_riseTrace]
    simp [countInvoke]
    omega
  · rw [h1]
    show cbCalls (_ ++ _) = [a]
    rw [cbCalls_append, cbCalls_riseTrace]
    simp [cbCalls]
  · rw [h1]
  · rw [h2]
    show countInvoke (_ ++ _) = k
    rw [countInvoke_append, countInvoke_riseTrace]
    simp [countInvoke]
    omega
  · rw [h2]
    show cbCalls (_ ++ _) = [a]
    rw [cbCalls_append, cbCalls_riseTrace]
    simp [cbCalls]
  · rw [h2]

/-- Witness for C3 at N = 3, k = 2: the operation fails once and succeeds
with 9 on the second attempt; both variants invoke it twice and call the
callback once with 9. -/
theorem c3_testigo :
    countInvoke (iniciar ⟨"W3", ⟨3, 5, false⟩, exitoTras 1 9,
        some (fun x => Except.ok ())⟩).1 = 2
    ∧ cbCalls (iniciar ⟨"W3", ⟨3, 5, false⟩, exitoTras 1 9,
        some (fun x => Except.ok ())⟩).1 = [9]
    ∧ countInvoke (asyncIniciar ⟨"W3a", ⟨some 3, none, none⟩, exitoTras 1 9,
        some (fun x => Except.ok ())⟩).1 = 2 :=
  have h := c3_teorema 3 2 (by decide) (by decide)
    ⟨"W3", ⟨3, 5, false⟩, exitoTras 1 9, some (fun x => Except.ok ())⟩ 9
    (fun x => Except.ok ()) rfl
    (fun i hi => by exact ⟨eBoom, by simp [exitoTras]; omega⟩) rfl rfl rfl
    ⟨"W3a", ⟨some 3, none, none⟩, exitoTras 1 9, some (fun x => Except.ok ())⟩
    (fun x => Except.ok ()) rfl
    (fun i hi => by exact ⟨eBoom, by simp [exitoTras]; omega⟩) rfl rfl rfl
  ⟨h.1, h.2.1, h.2.2.2.1⟩

/-- C4 (counterexample to the claim as stated): two async tasks whose
operations succeed immediately with the distinct results 1 and 2 invoke
their callbacks with those distinct results, yet both start() calls
resolve with exactly the same value (undefined) — so the async variant's
start() does not resolve with the operation's result. -/
theorem c4_contraejemplo :
    cbCalls (asyncIniciar ⟨"A4", ⟨some 1, none, none⟩, fun i => Except.ok 1,
        some (fun x => Except.ok ())⟩).1 = [1]
    ∧ cbCalls (asyncIniciar ⟨"A4", ⟨some 1, none, none⟩, fun i => Except.ok 2,
        some (fun x => Except.ok ())⟩).1 = [2]
    ∧ (asyncIniciar ⟨"A4", ⟨some 1, none, none⟩, fun i => Except.ok 1,
        some (fun x => Except.ok ())⟩).2 =
      (asyncIniciar ⟨"A4", ⟨some 1, none, none⟩, fun i => Except.ok 2,
        some (fun x => Except.ok ())⟩).2 := by
  have ha := asyncIniciar_exito_conDespues
    ⟨"A4", ⟨some 1, none, none⟩, fun i => Except.ok 1,
      some (fun x => Except.ok ())⟩ (m := 0) (a := 1)
    (by decide) (fun i hi => absurd hi (by omega)) rfl rfl rfl
  have hb := asyncIniciar_exito_conDespues
    ⟨"A4", ⟨some 1, none, none⟩, fun i => Except.ok 2,
      some (fun x => Except.ok ())⟩ (m := 0) (a := 2)
    (by decide) (fun i hi => absurd hi (by omega)) rfl rfl rfl
  rw [ha, hb]
  refine ⟨?_, ?_, rfl⟩ <;>
    simp [cbCalls_append, cbCalls_riseTrace, cbCalls]

/-- C4 (amended): in the class (and literal) variant, on eventual success
start() invokes the success callback with the result (it is the last
recorded event before the promise settles) and then resolves with that
same result; in the async variant the callback is likewise invoked with
the result, but start() resolves with undefined instead of the result. -/
theorem c4_amendado {α : Type} (t : Tarea α) {m : Nat} {a : α}
    {f : α → Except JsError Unit}
    (hm : m < t.config.maxIntentos)
    (hfail : ∀ i, i < m → ∃ e, t.ejecutar i = Except.error e)
    (hok : t.ejecutar m = Except.ok a)
    (hd : t.despues = some f) (hfa : f a = Except.ok ())
    (ta : AsyncOpciones α) {n : Nat} {b : α} {g : α → Except JsError Unit}
    (ham : n < (asyncPrepararConfiguracion ta.configuracion).maxIntentos)
    (hafail : ∀ i, i < n → ∃ e, ta.ejecutar i = Except.error e)
    (haok : ta.ejecutar n = Except.ok b)
    (had : ta.despues = some g) (hga : g b = Except.ok ()) :
    (iniciar t).1.getLast? = some (Ev.cb a)
    ∧ (iniciar t).2 = Except.ok a
    ∧ cbCalls (asyncIniciar ta).1 = [b]
    ∧ (asyncIniciar ta).2 = Except.ok () := by
  have h1 := iniciar_exito_conDespues t hm hfail hok hd hfa
  have h2 := asyncIniciar_exito_conDespues ta ham hafail haok had hga
  refine ⟨?_, by rw [h1], ?_, by rw [h2]⟩
  · rw [h1]
    show (_ ++ [Ev.cb a]).getLast? = some (Ev.cb a)
    simp
  · rw [h2]
    show cbCalls (_ ++ _) = [b]
    rw [cbCalls_append, cbCalls_riseTrace]
    simp [cbCalls]

/-- Witness for C4 (amended): a class task succeeding with 7 on attempt 1
ends its trace with the callback call and resolves with 7; the async
counterpart calls the callback with 7 and resolves with undefined. -/
theorem c4_testigo :
    (iniciar ⟨"W4", ⟨3, 5, false⟩, exitoTras 0 7,
        some (fun x => Except.ok ())⟩).1.getLast? = some (Ev.cb 7)
    ∧ (iniciar ⟨"W4", ⟨3, 5, false⟩, exitoTras 0 7,
        some (fun x => Except.ok ())⟩).2 = Except.ok 7
    ∧ (asyncIniciar ⟨"W4a", ⟨some 3, none, none⟩, exitoTras 0 7,
        some (fun x => Except.ok ())⟩).2 = Except.ok () :=
  have h := c4_amendado
    ⟨"W4", ⟨3, 5, false⟩, exitoTras 0 7, some (fun x => Except.ok ())⟩
    (m := 0) (a := 7) (by decide) (fun i hi => absurd hi (by omega)) rfl rfl rfl
    ⟨"W4a", ⟨some 3, none, none⟩, exitoTras 0 7, some (fun x => Except.ok ())⟩
    (n := 0) (b := 7) (by decide) (fun i hi => absurd hi (by omega)) rfl rfl rfl
  ⟨h.1, h.2.1, h.2.2.2⟩

/-- C5 (counterexample to the claim as stated): the async variant's
normalization of an empty configuration object leaves delayMs absent,
not 1000 — the cited normalization does not default every field. -/
theorem c5_contraejemplo :
    ¬ (asyncPrepararConfiguracion ⟨none, none, none⟩).demoraEntreIntentos =
      some 1000 := by
  decide

theorem orNat_pos (x : Option Nat) (d : Nat) (hd : 1 ≤ d) :
    1 ≤ orNat x d := by
  match x with
  | none => simpa [orNat] using hd
  | some 0 => simpa [orNat] using hd
  | some (n + 1) => simp [orNat]

/-- C5 (amended): the class (and literal) variant's normalization applies
falsy-coalescing defaults to all three fields — an empty configuration
yields maxAttempts 3, delayMs 1000, silent false, and a supplied 0 is
replaced by the default — and normalized maxAttempts is always ≥ 1 in
both variants; the async variant's normalization defaults only
maxAttempts and silent, leaving delayMs exactly as supplied (absent for
an empty configuration), and the delayMs default 1000 is applied by
falsy-coalescing at the wait site, so the effective delay for an absent
or 0 value is still 1000. -/
theorem c5_amendado (raw : RawConfig) :
    prepararConfiguracion ⟨none, none, none⟩ =
      { maxIntentos := 3, demoraEntreIntentos := 1000, silencio := false }
    ∧ prepararConfiguracion ⟨some 0, some 0, some false⟩ =
      { maxIntentos := 3, demoraEntreIntentos := 1000, silencio := false }
    ∧ 1 ≤ (prepararConfiguracion raw).maxIntentos
    ∧ 1 ≤ (asyncPrepararConfiguracion raw).maxIntentos
    ∧ asyncPrepararConfiguracion ⟨none, none, none⟩ =
      { maxIntentos := 3, silencio := false, demoraEntreIntentos := none }
    ∧ orNat (asyncPrepararConfiguracion
        ⟨none, none, none⟩).demoraEntreIntentos 1000 = 1000
    ∧ orNat (asyncPrepararConfiguracion
        ⟨some 0, some 0, some false⟩).demoraEntreIntentos 1000 = 1000 := by
  refine ⟨rfl, rfl, ?_, ?_, rfl, rfl, rfl⟩
  · exact orNat_pos raw.reintentos 3 (by decide)
  · exact orNat_pos raw.reintentos 3 (by decide)

/-- C6 (counterexample to the claim as stated): two class-variant tasks
with different names and different attempt counts, both exhausting all
attempts, reject with exactly the same failure value — so the failure
value carries neither the task's name nor the attempt count. -/
theorem c6_contraejemplo :
    (⟨"TareaA", ⟨1, 5, false⟩, fallaSiempre, none⟩ : Tarea Nat).nombre ≠
      (⟨"TareaB", ⟨2, 5, false⟩, fallaSiempre, none⟩ : Tarea Nat).nombre
    ∧ (⟨"TareaA", ⟨1, 5, false⟩, fallaSiempre, none⟩ : Tarea Nat).config.maxIntentos ≠
      (⟨"TareaB", ⟨2, 5, false⟩, fallaSiempre, none⟩ : Tarea Nat).config.maxIntentos
    ∧ (iniciar (⟨"TareaA", ⟨1, 5, false⟩, fallaSiempre, none⟩ : Tarea Nat)).2 =
      (iniciar (⟨"TareaB", ⟨2, 5, false⟩, fallaSiempre, none⟩ : Tarea Nat)).2
    ∧ (iniciar (⟨"TareaA", ⟨1, 5, false⟩, fallaSiempre, none⟩ : Tarea Nat)).2 =
      Except.error todosError := by
  have ha := iniciar_todosFallan
    (⟨"TareaA", ⟨1, 5, false⟩, fallaSiempre, none⟩ : Tarea Nat) (by decide)
    (fun i _ => ⟨eBoom, rfl⟩)
  have hb := iniciar_todosFallan
    (⟨"TareaB", ⟨2, 5, false⟩, fallaSiempre, none⟩ : Tarea Nat) (by decide)
    (fun i _ => ⟨eBoom, rfl⟩)
  refine ⟨by decide, by decide, ?_, ?_⟩
  · rw [ha, hb]
  · rw [ha]

/-- C6 (amended): on exhaustion the class variant's start() rejects with
the fixed error whose message is "Todos los intentos fallaron.", which
carries neither the task name nor the attempt count; the task name is
carried by the single terminal error-level log instead. -/
theorem c6_amendado {α : Type} (t : Tarea α) (hN : 1 ≤ t.config.maxIntentos)
    (hf : ∀ i, ∃ e, t.ejecutar i = Except.error e) :
    (iniciar t).2 = Except.error todosError
    ∧ todosError.message = "Todos los intentos fallaron."
    ∧ errLogs (iniciar t).1 = [(t.nombre, todosError)] := by
  have h := iniciar_todosFallan t hN (fun i _ => hf i)
  refine ⟨by rw [h], rfl, ?_⟩
  rw [h]
  simp [errLogs_append, errLogs_claseFailTrace, errLogs]

/-- Witness for C6 (amended) on a concrete always-failing task. -/
theorem c6_testigo :
    (iniciar (⟨"W6", ⟨2, 9, false⟩, fallaSiempre, none⟩ : Tarea Nat)).2 =
      Except.error todosError
    ∧ errLogs (iniciar
        (⟨"W6", ⟨2, 9, false⟩, fallaSiempre, none⟩ : Tarea Nat)).1 =
      [("W6", todosError)] :=
  have h := c6_amendado (⟨"W6", ⟨2, 9, false⟩, fallaSiempre, none⟩ : Tarea Nat)
    (by decide) (fun i => ⟨eBoom, rfl⟩)
  ⟨h.1, h.2.2⟩

/-- C7 (confirmed): in both the class and async variants, a silent run
emits no per-attempt warning; a non-silent run emits exactly one warning
per failed attempt, numbered 1, 2, ... in order (the number of failed
attempts being the number of invocations minus one on a successful run);
and a run whose retry loop exhausts all attempts emits exactly one
error-level log tagged with the task name, for any value of the silent
flag. -/
theorem c7_teorema {α : Type} (conf : Config)
    (funcion : Nat → Except JsError α) (hN : 1 ≤ conf.maxIntentos)
    (t : Tarea α) (htN : 1 ≤ t.config.maxIntentos)
    (config : AsyncConfig) (g : Nat → Except JsError α)
    (ta : AsyncOpciones α) :
    (conf.silencio = true →
      warnNums (ejecutarConResiliencia funcion conf).1 = [])
    ∧ (conf.silencio = false →
        warnNums (ejecutarConResiliencia funcion conf).1 =
          numsFrom 1 (countInvoke (ejecutarConResiliencia funcion conf).1 -
            exitoso (ejecutarConResiliencia funcion conf).2))
    ∧ ((ejecutarConResiliencia t.ejecutar t.config).2 =
          Except.error todosError →
        errLogs (iniciar t).1 = [(t.nombre, todosError)])
    ∧ (config.silencio = true →
        warnNums (asyncEjecutarConResiliencia g config).1 = [])
    ∧ (config.silencio = false →
        warnNums (asyncEjecutarConResiliencia g config).1 =
          numsFrom 1 (countInvoke (asyncEjecutarConResiliencia g config).1 -
            exitoso (asyncEjecutarConResiliencia g config).2))
    ∧ ((asyncEjecutarConResiliencia ta.ejecutar
          (asyncPrepararConfiguracion ta.configuracion)).2 =
            Except.error todosError →
        errLogs (asyncIniciar ta).1 = [(ta.nombre, todosError)]) := by
  refine ⟨?_, ?_, ?_, ?_, ?_, ?_⟩
  · intro hsil
    rcases corrida_clase conf funcion hN with
      ⟨m, a, hm, hok, hfail, hrun⟩ | ⟨hfail, hrun⟩ <;>
      rw [hrun] <;> rw [hsil] <;>
      simp [warnNums_riseTrace, warnNums_claseFailTrace]
  · intro hsil
    rcases corrida_clase conf funcion hN with
      ⟨m, a, hm, hok, hfail, hrun⟩ | ⟨hfail, hrun⟩ <;>
      rw [hrun] <;> rw [hsil] <;>
      simp [warnNums_riseTrace, warnNums_claseFailTrace,
        countInvoke_riseTrace, countInvoke_claseFailTrace, exitoso]
  · intro hterm
    rcases corrida_clase t.config t.ejecutar htN with
      ⟨m, a, hm, hok, hfail, hrun⟩ | ⟨hfail, hrun⟩
    · rw [hrun] at hterm
      simp at hterm
    · rw [iniciar_todosFallan t htN hfail]
      simp [errLogs_append, errLogs_claseFailTrace, errLogs]
  · intro hsil
    rcases corrida_async config g with
      ⟨m, a, hm, hok, hfail, hrun⟩ | ⟨hfail, hrun⟩ <;>
      rw [hrun] <;> rw [hsil] <;>
      simp [warnNums_riseTrace, warnNums_asyncFailTrace]
  · intro hsil
    rcases corrida_async config g with
      ⟨m, a, hm, hok, hfail, hrun⟩ | ⟨hfail, hrun⟩ <;>
      rw [hrun] <;> rw [hsil] <;>
      simp [warnNums_riseTrace, warnNums_asyncFailTrace,
        countInvoke_riseTrace, countInvoke_asyncFailTrace, exitoso]
  · intro hterm
    rcases corrida_async (asyncPrepararConfiguracion ta.configuracion)
      ta.ejecutar with ⟨m, a, hm, hok, hfail, hrun⟩ | ⟨hfail, hrun⟩
    · rw [hrun] at hterm
      simp at hterm
    · rw [asyncIniciar_todosFallan ta hfail]
      simp [errLogs_append, errLogs_asyncFailTrace, errLogs]

/-- Witness for C7: with 2 always-failing attempts, the non-silent class
run warns with numbers 1 and 2; the silent class run warns never; the
silent task still gets its terminal error log tagged "W7". -/
theorem c7_testigo :
    warnNums (ejecutarConResiliencia fallaSiempre ⟨2, 5, false⟩).1 =
      numsFrom 1 (countInvoke (ejecutarConResiliencia fallaSiempre
        ⟨2, 5, false⟩).1 -
        exitoso (ejecutarConResiliencia fallaSiempre ⟨2, 5, false⟩).2)
    ∧ warnNums (ejecutarConResiliencia fallaSiempre ⟨2, 5, true⟩).1 = []
    ∧ errLogs (iniciar
        (⟨"W7", ⟨2, 5, true⟩, fallaSiempre, none⟩ : Tarea Nat)).1 =
      [("W7", todosError)] := by
  have h1 := c7_teorema ⟨2, 5, false⟩ fallaSiempre (by decide)
    (⟨"W7", ⟨2, 5, true⟩, fallaSiempre, none⟩ : Tarea Nat) (by decide)
    ⟨2, false, none⟩ fallaSiempre
    ⟨"W7a", ⟨some 2, none, none⟩, fallaSiempre, none⟩
  have h2 := c7_teorema ⟨2, 5, true⟩ fallaSiempre (by decide)
    (⟨"W7", ⟨2, 5, true⟩, fallaSiempre, none⟩ : Tarea Nat) (by decide)
    ⟨2, false, none⟩ fallaSiempre
    ⟨"W7a", ⟨some 2, none, none⟩, fallaSiempre, none⟩
  refine ⟨h1.2.1 rfl, h2.1 rfl, h1.2.2.1 ?_⟩
  have h := intentar_todosFallan (⟨2, 5, true⟩ : Config) fallaSiempre
    (fun i _ => ⟨eBoom, rfl⟩) 2 0 rfl (by decide)
  show (intentar (⟨2, 5, true⟩ : Config) fallaSiempre 0).2 = _
  rw [h]

/-- C8 (confirmed): the literal variant's start() sets the persistent
attempt counter to 0 on entry, so with an always-failing operation the
first run performs exactly maxAttempts invocations and fails, leaves the
counter at maxAttempts, and a second start() on the resulting instance
again performs exactly maxAttempts invocations and fails. -/
theorem c8_teorema {α : Type} (s : TareaLiteral α) (hN : 1 ≤ s.reintentos)
    (hf : ∀ i, ∃ e, s.ejecutar i = Except.error e) :
    countInvoke (litIniciar s).1.1 = s.reintentos
    ∧ (litIniciar s).1.2 = Except.error todosError
    ∧ ((litIniciar s).2).intentosRealizados = s.reintentos
    ∧ countInvoke (litIniciar ((litIniciar s).2)).1.1 = s.reintentos
    ∧ (litIniciar ((litIniciar s).2)).1.2 = Except.error todosError := by
  have h1 := litIniciar_todosFallan s hN hf
  have h2 := litIniciar_todosFallan
    { s with intentosRealizados := s.reintentos,
             llamadas := s.llamadas + s.reintentos }
    (by simpa using hN) (by simpa using hf)
  refine ⟨?_, ?_, ?_, ?_, ?_⟩
  · rw [h1]
    show countInvoke (_ ++ _) = s.reintentos
    rw [countInvoke_append, countInvoke_claseFailTrace]
    simp [countInvoke]
  · rw [h1]
  · rw [h1]
  · have hs : (litIniciar s).2 =
        { s with intentosRealizados := s.reintentos,
                 llamadas := s.llamadas + s.reintentos } := by rw [h1]
    rw [hs, h2]
    show countInvoke (_ ++ _) = s.reintentos
    rw [countInvoke_append, countInvoke_claseFailTrace]
    simp [countInvoke]
  · have hs : (litIniciar s).2 =
        { s with intentosRealizados := s.reintentos,
                 llamadas := s.llamadas + s.reintentos } := by rw [h1]
    rw [hs, h2]

/-- Witness for C8 on a concrete always-failing literal task with
reintentos = 2. -/
theorem c8_testigo :
    countInvoke (litIniciar
      (⟨"W8", 2, 5, false, fallaSiempre, fun x => Except.ok (), 0, 0⟩ :
        TareaLiteral Nat)).1.1 = 2
    ∧ countInvoke (litIniciar ((litIniciar
      (⟨"W8", 2, 5, false, fallaSiempre, fun x => Except.ok (), 0, 0⟩ :
        TareaLiteral Nat)).2)).1.1 = 2 :=
  have h := c8_teorema
    (⟨"W8", 2, 5, false, fallaSiempre, fun x => Except.ok (), 0, 0⟩ :
      TareaLiteral Nat) (by decide) (fun i => ⟨eBoom, rfl⟩)
  ⟨h.1, h.2.2.2.1⟩

/-- C9 (counterexample to the claim as stated): in the async variant, when
the operation succeeds with 7 on its single invocation and the supplied
success callback throws, the failure does not propagate to the caller of
start(): it is caught and logged, and start() resolves with undefined. -/
theorem c9_contraejemplo :
    (asyncIniciar ⟨"A9", ⟨some 3, none, none⟩, exitoTras 0 7,
        some (fun x => Except.error eCb)⟩).2 = Except.ok ()
    ∧ cbCalls (asyncIniciar ⟨"A9", ⟨some 3, none, none⟩, exitoTras 0 7,
        some (fun x => Except.error eCb)⟩).1 = [7]
    ∧ errLogs (asyncIniciar ⟨"A9", ⟨some 3, none, none⟩, exitoTras 0 7,
        some (fun x => Except.error eCb)⟩).1 = [("A9", eCb)]
    ∧ countInvoke (asyncIniciar ⟨"A9", ⟨some 3, none, none⟩, exitoTras 0 7,
        some (fun x => Except.error eCb)⟩).1 = 1 := by
  have h := asyncIniciar_despuesFalla
    ⟨"A9", ⟨some 3, none, none⟩, exitoTras 0 7,
      some (fun x => Except.error eCb)⟩ (m := 0) (a := 7) (e := eCb)
    (by decide) (fun i hi => absurd hi (by omega)) rfl rfl rfl
  rw [h]
  refine ⟨rfl, ?_, ?_, ?_⟩
  · simp [cbCalls_append, cbCalls_riseTrace, cbCalls]
  · simp [errLogs_append, errLogs_riseTrace, errLogs]
  · rw [countInvoke_append, countInvoke_riseTrace]
    simp [countInvoke]

/-- C9 (amended): a success-callback failure is never caught by the retry
loop and never triggers another invocation of the operation; in the class
(and literal) variant it propagates to the caller of start() (after being
logged by the final catch), while in the async variant it is caught by
start()'s own catch, logged, and swallowed (start() resolves with
undefined). -/
theorem c9_amendado {α : Type} (t : Tarea α) {m : Nat} {a : α}
    {f : α → Except JsError Unit} {e : JsError}
    (hm : m < t.config.maxIntentos)
    (hfail : ∀ i, i < m → ∃ e2, t.ejecutar i = Except.error e2)
    (hok : t.ejecutar m = Except.ok a)
    (hd : t.despues = some f) (hfa : f a = Except.error e)
    (ta : AsyncOpciones α) {n : Nat} {b : α}
    {g : α → Except JsError Unit} {w : JsError}
    (hbm : n < (asyncPrepararConfiguracion ta.configuracion).maxIntentos)
    (hbfail : ∀ i, i < n → ∃ e2, ta.ejecutar i = Except.error e2)
    (hbok : ta.ejecutar n = Except.ok b)
    (hbd : ta.despues = some g) (hbfa : g b = Except.error w) :
    (iniciar t).2 = Except.error e
    ∧ countInvoke (iniciar t).1 = m + 1
    ∧ errLogs (iniciar t).1 = [(t.nombre, e)]
    ∧ (asyncIniciar ta).2 = Except.ok ()
    ∧ countInvoke (asyncIniciar ta).1 = n + 1
    ∧ errLogs (asyncIniciar ta).1 = [(ta.nombre, w)] := by
  have h1 := iniciar_despuesFalla t hm hfail hok hd hfa
  have h2 := asyncIniciar_despuesFalla ta hbm hbfail hbok hbd hbfa
  refine ⟨by rw [h1], ?_, ?_, by rw [h2], ?_, ?_⟩
  · rw [h1]
    show countInvoke (_ ++ _) = m + 1
    rw [countInvoke_append, countInvoke_riseTrace]
    simp [countInvoke]
  · rw [h1]
    show errLogs (_ ++ _) = [(t.nombre, e)]
    rw [errLogs_append, errLogs_riseTrace]
    simp [errLogs]
  · rw [h2]
    show countInvoke (_ ++ _) = n + 1
    rw [countInvoke_append, countInvoke_riseTrace]
    simp [countInvoke]
  · rw [h2]
    show errLogs (_ ++ _) = [(ta.nombre, w)]
    rw [errLogs_append, errLogs_riseTrace]
    simp [errLogs]

/-- Witness for C9 (amended): the operation succeeds with 7 at once, the
callback throws; the class variant rejects with the callback's error
after exactly 1 invocation, the async variant resolves with undefined. -/
theorem c9_testigo :
    (iniciar (⟨"W9", ⟨3, 5, false⟩, exitoTras 0 7,
        some (fun x => Except.error eCb)⟩ : Tarea Nat)).2 =
      Except.error eCb
    ∧ countInvoke (iniciar (⟨"W9", ⟨3, 5, false⟩, exitoTras 0 7,
        some (fun x => Except.error eCb)⟩ : Tarea Nat)).1 = 0 + 1
    ∧ (asyncIniciar ⟨"W9a", ⟨some 3, none, none⟩, exitoTras 0 7,
        some (fun x => Except.error eCb)⟩).2 = Except.ok () :=
  have h := c9_amendado
    (⟨"W9", ⟨3, 5, false⟩, exitoTras 0 7,
      some (fun x => Except.error eCb)⟩ : Tarea Nat)
    (m := 0) (a := 7) (e := eCb) (by decide)
    (fun i hi => absurd hi (by omega)) rfl rfl rfl
    ⟨"W9a", ⟨some 3, none, none⟩, exitoTras 0 7,
      some (fun x => Except.error eCb)⟩
    (n := 0) (b := 7) (w := eCb) (by decide)
    (fun i hi => absurd hi (by omega)) rfl rfl rfl
  ⟨h.1, h.2.1, h.2.2.2.1⟩

/-- C10 (confirmed): constructing a class-variant task with the
configuracion option absent (undefined or null, both modelled as `none`)
succeeds and yields exactly the fully-defaulted normalized configuration
{maxIntentos 3, demoraEntreIntentos 1000, silencio false} — the same as
constructing with an empty configuration object. -/
theorem c10_teorema {α : Type} (nombre : Option String)
    (ejecutar : Nat → Except JsError α)
    (despues : Option (α → Except JsError Unit)) :
    (mkTarea ⟨nombre, none, ejecutar, despues⟩).config =
      { maxIntentos := 3, demoraEntreIntentos := 1000, silencio := false }
    ∧ (mkTarea ⟨nombre, none, ejecutar, despues⟩).config =
      (mkTarea ⟨nombre, some ⟨none, none, none⟩, ejecutar, despues⟩).config :=
  ⟨rfl, rfl⟩
